import Mathlib

/-!
Shallow embedding of the notes backend (src/notes_backend/src/api/db.py and
src/notes_backend/src/api/notes.py): the data model of the `notes` table,
the semantics of the SQL statements the handlers issue, and the five request
handlers together with the configuration lookup, followed by theorems for
the specified properties.
-/

/-- A row of the `notes` table as created by ensure_schema (db.py, lines 78-88).
Timestamps are SQLite CURRENT_TIMESTAMP values; the code orders them through
datetime(), i.e. as parsed sortable values, so they are modelled as naturals. -/
structure Note where
  id : Int
  title : String
  content : String
  created_at : Nat
  updated_at : Nat
deriving Repr, DecidableEq

/-- The notes store: the table rows plus the AUTOINCREMENT sequence value,
i.e. the next id the engine will assign (AUTOINCREMENT never reuses ids). -/
structure DB where
  rows : List Note
  nextId : Int
deriving Repr, DecidableEq

/-- SELECT id, title, content, created_at, updated_at FROM notes WHERE id = ?
followed by fetchone. -/
def selectNote (db : DB) (note_id : Int) : Option Note :=
  db.rows.find? fun n => n.id == note_id

/-- INSERT INTO notes (title, content) VALUES (?, ?) followed by lastrowid.
created_at and updated_at take their DEFAULT CURRENT_TIMESTAMP value. -/
def insertNote (db : DB) (title content : String) (now : Nat) : DB × Int :=
  ({ rows := db.rows ++ [{ id := db.nextId, title := title, content := content,
                           created_at := now, updated_at := now }],
     nextId := db.nextId + 1 },
   db.nextId)

/-- Fields supplied by a PUT /notes/:id payload (NoteUpdate, notes.py lines 43-60). -/
structure NoteUpdate where
  title : Option String
  content : Option String
deriving Repr, DecidableEq

/-- Combined effect on one row of an UPDATE of its supplied fields followed by
the notes_set_updated_at trigger, which resets updated_at to CURRENT_TIMESTAMP
for that row after every UPDATE (db.py, lines 89-99). -/
def applyUpdate (p : NoteUpdate) (now : Nat) (n : Note) : Note :=
  { n with title := p.title.getD n.title, content := p.content.getD n.content,
           updated_at := now }

/-- UPDATE notes SET ... WHERE id = ?, with the update-timestamp trigger. -/
def updateStmt (db : DB) (note_id : Int) (p : NoteUpdate) (now : Nat) : DB :=
  { db with rows := db.rows.map fun n => if n.id == note_id then applyUpdate p now n else n }

/-- DELETE FROM notes WHERE id = ?, returning the new store and cur.rowcount. -/
def deleteStmt (db : DB) (note_id : Int) : DB × Nat :=
  ({ db with rows := db.rows.filter fun n => !(n.id == note_id) },
   (db.rows.filter fun n => n.id == note_id).length)

/-- Outcome of a request: success payload (200/201/204), a validation error
(422), not found (404), or a database error (500). -/
inductive ApiResult (α : Type) where
  | ok : α → ApiResult α
  | validationError : ApiResult α
  | notFound : ApiResult α
  | serverError : ApiResult α
deriving Repr, DecidableEq

/-- Pydantic bounds for title: Field min_length=1, max_length=200, counted in
code points (notes.py lines 23-29). -/
abbrev ValidTitle (s : String) : Prop := 1 ≤ s.length ∧ s.length ≤ 200

/-- Pydantic bounds for content: Field min_length=1, max_length=50000. -/
abbrev ValidContent (s : String) : Prop := 1 ≤ s.length ∧ s.length ≤ 50000

/-- Pydantic validation of a NoteUpdate payload: every supplied field obeys its
bounds; absent fields pass. -/
def validUpdateFields (p : NoteUpdate) : Bool :=
  (match p.title with
   | none => true
   | some t => decide (ValidTitle t))
  &&
  (match p.content with
   | none => true
   | some c => decide (ValidContent c))

/-- POST /notes (notes.py create_note): after payload validation, insert the
note, then re-read the row by the assigned id and return it. -/
def create_note (title content : String) (now : Nat) (db : DB) :
    ApiResult Note × DB :=
  if ValidTitle title ∧ ValidContent content then
    let r := insertNote db title content now
    match selectNote r.1 r.2 with
    | some n => (.ok n, r.1)
    | none => (.serverError, r.1)
  else (.validationError, db)

/-- ORDER BY datetime(updated_at) DESC, id DESC: row a may come before row b. -/
def noteOrder (a b : Note) : Prop :=
  b.updated_at < a.updated_at ∨ (a.updated_at = b.updated_at ∧ b.id ≤ a.id)

instance : DecidableRel noteOrder := fun a b => by
  unfold noteOrder; exact inferInstance

instance : IsTotal Note noteOrder :=
  ⟨fun a b => by
    unfold noteOrder
    rcases Nat.lt_trichotomy a.updated_at b.updated_at with h | h | h
    · exact Or.inr (Or.inl h)
    · rcases le_total b.id a.id with h' | h'
      · exact Or.inl (Or.inr ⟨h, h'⟩)
      · exact Or.inr (Or.inr ⟨h.symm, h'⟩)
    · exact Or.inl (Or.inl h)⟩

instance : IsTrans Note noteOrder :=
  ⟨fun a b c hab hbc => by
    unfold noteOrder at hab hbc ⊢
    rcases hab with h1 | ⟨h1, h1'⟩ <;> rcases hbc with h2 | ⟨h2, h2'⟩
    · exact Or.inl (by omega)
    · exact Or.inl (by omega)
    · exact Or.inl (by omega)
    · exact Or.inr ⟨by omega, by omega⟩⟩

/-- SELECT ... FROM notes ORDER BY datetime(updated_at) DESC, id DESC
LIMIT ? OFFSET ? (notes.py lines 166-174): the truncation happens in the
statement itself, on the ordered rows. -/
def listQuery (db : DB) (limit offset : Int) : List Note :=
  ((List.insertionSort noteOrder db.rows).drop offset.toNat).take limit.toNat

/-- GET /notes (notes.py list_notes): validate limit and offset, then run the
single ordered, truncated SELECT. Query defaults are limit=200, offset=0. -/
def list_notes (limit? offset? : Option Int) (db : DB) :
    ApiResult (List Note) × DB :=
  let limit := limit?.getD 200
  let offset := offset?.getD 0
  if limit < 1 ∨ 500 < limit then (.validationError, db)
  else if offset < 0 then (.validationError, db)
  else (.ok (listQuery db limit offset), db)

/-- GET /notes/:id (notes.py get_note). -/
def get_note (note_id : Int) (db : DB) : ApiResult Note × DB :=
  if note_id ≤ 0 then (.validationError, db)
  else
    match selectNote db note_id with
    | none => (.notFound, db)
    | some n => (.ok n, db)

/-- PUT /notes/:id (notes.py update_note): payload validation, id positivity,
at-least-one-field check, explicit existence check, then one of three UPDATE
statements depending on which fields are supplied, then a re-read. -/
def update_note (note_id : Int) (payload : NoteUpdate) (now : Nat) (db : DB) :
    ApiResult Note × DB :=
  if !validUpdateFields payload then (.validationError, db)
  else if note_id ≤ 0 then (.validationError, db)
  else if payload.title.isNone && payload.content.isNone then (.validationError, db)
  else
    match selectNote db note_id with
    | none => (.notFound, db)
    | some _ =>
      let db' :=
        if payload.title.isSome && payload.content.isSome then
          updateStmt db note_id payload now
        else if payload.title.isSome then
          updateStmt db note_id { title := payload.title, content := none } now
        else
          updateStmt db note_id { title := none, content := payload.content } now
      match selectNote db' note_id with
      | some n => (.ok n, db')
      | none => (.serverError, db')

/-- DELETE /notes/:id (notes.py delete_note): one DELETE; rowcount zero is the
sole not-found signal. -/
def delete_note (note_id : Int) (db : DB) : ApiResult Unit × DB :=
  if note_id ≤ 0 then (.validationError, db)
  else
    let r := deleteStmt db note_id
    if r.2 = 0 then (.notFound, r.1) else (.ok (), r.1)

/-- Store well-formedness maintained by the engine: the AUTOINCREMENT sequence
is at least 1, every row id is positive and below the sequence value, and row
ids are unique. -/
abbrev DB.Wf (db : DB) : Prop :=
  1 ≤ db.nextId
  ∧ (∀ n ∈ db.rows, 0 < n.id ∧ n.id < db.nextId)
  ∧ (db.rows.map Note.id).Nodup

/-- Abstraction of the process environment and filesystem seen by
get_sqlite_db_path: the working directory and the set of existing paths. -/
structure FileSystem where
  cwd : String
  existing : List String
deriving Repr, DecidableEq

/-- os.path.isabs: a POSIX path is absolute when it begins with a slash. -/
def isAbsolute (p : String) : Bool :=
  match p.data with
  | [] => false
  | c :: _ => c == '/'

/-- os.path.abspath: a relative path is resolved against the working directory. -/
def FileSystem.abspath (fs : FileSystem) (p : String) : String :=
  if isAbsolute p then p else fs.cwd ++ "/" ++ p

/-- os.path.exists. -/
def FileSystem.pathExists (fs : FileSystem) (p : String) : Bool :=
  fs.existing.contains p

/-- db.py get_sqlite_db_path: reads SQLITE_DB from the environment (None when
unset); the code's falsy test rejects both None and the empty string; otherwise
it normalizes the value to an absolute path and requires that path to exist.
The error side models RuntimeError (the ConfigurationError of the spec). -/
def get_sqlite_db_path (fs : FileSystem) (env : Option String) : Except String String :=
  match env with
  | none => .error "Missing required environment variable SQLITE_DB."
  | some p =>
    if p = "" then .error "Missing required environment variable SQLITE_DB."
    else
      let a := fs.abspath p
      if fs.pathExists a then .ok a
      else .error "SQLITE_DB points to a file that does not exist."

/-- Whether the configuration lookup failed. -/
def isConfigError (r : Except String String) : Bool :=
  match r with
  | .error _ => true
  | .ok _ => false

/-! ### Helper lemmas about the statement semantics -/

theorem selectNote_mem (db : DB) (i : Int) (n : Note) (h : selectNote db i = some n) :
    n ∈ db.rows ∧ n.id = i := by
  unfold selectNote at h
  refine ⟨List.mem_of_find?_eq_some h, ?_⟩
  have h2 := List.find?_some h
  simpa using h2

theorem find?_append_fresh (l : List Note) (m : Note) (i : Int)
    (h : ∀ n ∈ l, n.id ≠ i) (hm : m.id = i) :
    (l ++ [m]).find? (fun n => n.id == i) = some m := by
  induction l with
  | nil => simp [List.find?, hm]
  | cons a t ih =>
    have ha : a.id ≠ i := h a (List.mem_cons_self a t)
    simp only [List.cons_append, List.find?_cons]
    have : (a.id == i) = false := by simpa using ha
    rw [this]
    exact ih fun n hn => h n (List.mem_cons_of_mem a hn)

theorem selectNote_updateStmt (db : DB) (i : Int) (p : NoteUpdate) (now : Nat) :
    selectNote (updateStmt db i p now) i = (selectNote db i).map (applyUpdate p now) := by
  show (db.rows.map fun n => if n.id == i then applyUpdate p now n else n).find?
      (fun n => n.id == i) = (db.rows.find? fun n => n.id == i).map (applyUpdate p now)
  induction db.rows with
  | nil => rfl
  | cons a t ih =>
    by_cases h : a.id = i
    · have hb : (a.id == i) = true := by simpa using h
      have hb' : ((applyUpdate p now a).id == i) = true := hb
      have e1 : (if (a.id == i) = true then applyUpdate p now a else a)
          = applyUpdate p now a := by simp [hb]
      have e2 : List.find? (fun n => n.id == i)
          (applyUpdate p now a
            :: List.map (fun n => if (n.id == i) = true then applyUpdate p now n else n) t)
          = some (applyUpdate p now a) := List.find?_cons_of_pos _ hb'
      have e3 : List.find? (fun n => n.id == i) (a :: t) = some a :=
        List.find?_cons_of_pos _ hb
      rw [List.map_cons, e1, e2, e3]
      rfl
    · have hb : (a.id == i) = false := by simpa using h
      have e1 : (if (a.id == i) = true then applyUpdate p now a else a) = a := by
        simp [hb]
      have e2 : List.find? (fun n => n.id == i)
          (a :: List.map (fun n => if (n.id == i) = true then applyUpdate p now n else n) t)
          = List.find? (fun n => n.id == i)
              (List.map (fun n => if (n.id == i) = true then applyUpdate p now n else n) t) :=
        List.find?_cons_of_neg _ (by simp [hb])
      have e3 : List.find? (fun n => n.id == i) (a :: t)
          = List.find? (fun n => n.id == i) t :=
        List.find?_cons_of_neg _ (by simp [hb])
      rw [List.map_cons, e1, e2, e3, ih]

theorem selectNote_deleteStmt (db : DB) (i : Int) :
    selectNote (deleteStmt db i).1 i = none := by
  show (db.rows.filter fun n => !(n.id == i)).find? (fun n => n.id == i) = none
  rw [List.find?_eq_none]
  intro x hx
  have hkeep := (List.mem_filter.mp hx).2
  simp only [Bool.not_eq_true'] at hkeep
  simp [hkeep]

theorem deleteStmt_count_zero_iff (db : DB) (i : Int) :
    (deleteStmt db i).2 = 0 ↔ selectNote db i = none := by
  show (db.rows.filter fun n => n.id == i).length = 0 ↔ _
  rw [List.length_eq_zero, List.filter_eq_nil_iff, selectNote, List.find?_eq_none]

theorem selectNote_pos_of_wf (db : DB) (i : Int) (n : Note) (hw : db.Wf)
    (h : selectNote db i = some n) : 0 < i := by
  obtain ⟨hmem, hid⟩ := selectNote_mem db i n h
  have := hw.2.1 n hmem
  omega

/-! ### Claim theorems -/

/-- C1: for every (title, content) with title length in [1,200] and content
length in [1,50000] code points, create followed by get on the returned id
yields a record whose title and content equal the inputs, whose id is a
positive integer, and whose updated_at equals created_at. -/
theorem create_then_get (db : DB) (title content : String) (now : Nat)
    (hw : db.Wf) (ht : ValidTitle title) (hc : ValidContent content) :
    ∃ note db',
      create_note title content now db = (.ok note, db')
      ∧ note.title = title ∧ note.content = content
      ∧ 0 < note.id
      ∧ note.updated_at = note.created_at
      ∧ get_note note.id db' = (.ok note, db') := by
  have hfresh : ∀ n ∈ db.rows, n.id ≠ db.nextId := fun n hn => by
    have := hw.2.1 n hn; omega
  have hsel : selectNote (insertNote db title content now).1 db.nextId
      = some { id := db.nextId, title := title, content := content,
               created_at := now, updated_at := now } :=
    find?_append_fresh db.rows _ db.nextId hfresh rfl
  refine ⟨{ id := db.nextId, title := title, content := content,
            created_at := now, updated_at := now },
          (insertNote db title content now).1, ?_, rfl, rfl, ?_, rfl, ?_⟩
  · unfold create_note
    rw [if_pos ⟨ht, hc⟩]
    show (match selectNote (insertNote db title content now).1 db.nextId with
          | some n => ((ApiResult.ok n), (insertNote db title content now).1)
          | none => (ApiResult.serverError, (insertNote db title content now).1))
        = _
    rw [hsel]
  · show 0 < db.nextId
    have := hw.1; omega
  · show get_note db.nextId (insertNote db title content now).1 = _
    unfold get_note
    rw [if_neg (show ¬ db.nextId ≤ 0 by have := hw.1; omega)]
    rw [hsel]

/-- C5: for every id, an update request supplying neither title nor content is
rejected with a validation outcome (not not-found), whether or not the id
exists, and the store is unchanged. -/
theorem update_note_no_fields (note_id : Int) (now : Nat) (db : DB) :
    update_note note_id { title := none, content := none } now db
      = (.validationError, db) := by
  unfold update_note
  by_cases h : note_id ≤ 0 <;> simp [validUpdateFields, h]

/-- C9: for every store state and every input, get and list never modify the
notes store, whether they succeed, return not-found, or fail validation. -/
theorem get_list_readonly (db : DB) (note_id : Int) (limit? offset? : Option Int) :
    (get_note note_id db).2 = db ∧ (list_notes limit? offset? db).2 = db := by
  constructor
  · unfold get_note
    by_cases h : note_id ≤ 0
    · simp [h]
    · rw [if_neg h]
      cases selectNote db note_id <;> rfl
  · unfold list_notes
    by_cases h1 : (limit?.getD 200) < 1 ∨ 500 < (limit?.getD 200)
    · simp [h1]
    · by_cases h2 : (offset?.getD 0) < 0 <;> simp [h1, h2]

/-- C2: for every store and valid limit and offset, list returns exactly the
storage-level truncation of the ordered rows (no further truncation in the
handler): at most limit records, pairwise non-increasing in the
(updated_at, id) lexicographic order, i.e. updated_at descending with ties
broken by id descending. -/
theorem list_notes_ordered_truncated (db : DB) (k off : Int)
    (hk1 : 1 ≤ k) (hk2 : k ≤ 500) (hoff : 0 ≤ off) :
    list_notes (some k) (some off) db = (.ok (listQuery db k off), db)
    ∧ (listQuery db k off).length ≤ k.toNat
    ∧ List.Pairwise noteOrder (listQuery db k off) := by
  refine ⟨?_, ?_, ?_⟩
  · have h1 : ¬(k < 1 ∨ 500 < k) := by omega
    have h2 : ¬(off < 0) := by omega
    simp [list_notes, h1, h2]
  · rw [listQuery, List.length_take]
    exact Nat.min_le_left _ _
  · have hs := List.sorted_insertionSort noteOrder db.rows
    have hsub : List.Sublist (listQuery db k off) (List.insertionSort noteOrder db.rows) :=
      (List.take_sublist _ _).trans (List.drop_sublist _ _)
    exact List.Pairwise.sublist hsub hs

/-- C7: list rejects limit outside [1,500] (in particular limit=0) and
negative offset with a validation outcome and an unchanged store; on an empty
store with valid parameters it returns success with an empty collection; and
omitted parameters default to limit=200 and offset=0. -/
theorem list_notes_validation (db : DB) (k off : Int) :
    ((k < 1 ∨ 500 < k) → list_notes (some k) (some off) db = (.validationError, db))
    ∧ (off < 0 → list_notes (some k) (some off) db = (.validationError, db))
    ∧ (1 ≤ k → k ≤ 500 → 0 ≤ off → db.rows = [] →
        list_notes (some k) (some off) db = (.ok [], db))
    ∧ list_notes none none db = list_notes (some 200) (some 0) db := by
  refine ⟨?_, ?_, ?_, rfl⟩
  · intro h
    simp [list_notes, h]
  · intro h
    by_cases h1 : k < 1 ∨ 500 < k <;> simp [list_notes, h, h1]
  · intro hk1 hk2 hoff hrows
    have h1 : ¬(k < 1 ∨ 500 < k) := by omega
    have h2 : ¬(off < 0) := by omega
    simp [list_notes, h1, h2, listQuery, hrows, List.insertionSort]

/-- Shared shape of every successful update: with a valid payload supplying at
least one field, a positive id and an existing row, update_note applies the
one UPDATE statement (with its trigger) and returns the re-read row. -/
theorem update_note_ok (db : DB) (note_id : Int) (p : NoteUpdate) (now : Nat)
    (note : Note) (hex : selectNote db note_id = some note)
    (hv : validUpdateFields p = true)
    (hsome : p.title ≠ none ∨ p.content ≠ none)
    (hid : ¬ note_id ≤ 0) :
    update_note note_id p now db
      = (.ok (applyUpdate p now note), updateStmt db note_id p now) := by
  obtain ⟨pt, pc⟩ := p
  rcases pt with _ | t <;> rcases pc with _ | c
  · rcases hsome with h | h <;> exact absurd rfl h
  · have hupd : selectNote (updateStmt db note_id ⟨none, some c⟩ now) note_id
        = some (applyUpdate ⟨none, some c⟩ now note) := by
      rw [selectNote_updateStmt, hex]; rfl
    simp [update_note, hv, hid, hex, hupd]
  · have hupd : selectNote (updateStmt db note_id ⟨some t, none⟩ now) note_id
        = some (applyUpdate ⟨some t, none⟩ now note) := by
      rw [selectNote_updateStmt, hex]; rfl
    simp [update_note, hv, hid, hex, hupd]
  · have hupd : selectNote (updateStmt db note_id ⟨some t, some c⟩ now) note_id
        = some (applyUpdate ⟨some t, some c⟩ now note) := by
      rw [selectNote_updateStmt, hex]; rfl
    simp [update_note, hv, hid, hex, hupd]

/-- C3: for every existing note and every valid update request supplying at
least one of title/content, the update succeeds, sets exactly the supplied
fields, leaves absent fields (and id and created_at) unchanged, and moves
updated_at to the statement time, which is at least the prior updated_at
whenever the clock has not gone backwards. -/
theorem update_note_frame (db : DB) (note_id : Int) (p : NoteUpdate) (now : Nat)
    (note : Note) (hw : db.Wf) (hex : selectNote db note_id = some note)
    (hv : validUpdateFields p = true)
    (hsome : p.title ≠ none ∨ p.content ≠ none)
    (hnow : note.updated_at ≤ now) :
    ∃ n' db',
      update_note note_id p now db = (.ok n', db')
      ∧ n'.id = note.id
      ∧ n'.created_at = note.created_at
      ∧ n'.title = p.title.getD note.title
      ∧ n'.content = p.content.getD note.content
      ∧ n'.updated_at = now
      ∧ note.updated_at ≤ n'.updated_at := by
  have hid : 0 < note_id := selectNote_pos_of_wf db note_id note hw hex
  exact ⟨applyUpdate p now note, updateStmt db note_id p now,
    update_note_ok db note_id p now note hex hv hsome (by omega),
    rfl, rfl, rfl, rfl, rfl, hnow⟩

/-- C4: for every id with no matching row, a valid update request supplying at
least one field yields the not-found outcome and leaves the store unchanged
(the existence check runs before any UPDATE statement). -/
theorem update_note_absent (db : DB) (note_id : Int) (p : NoteUpdate) (now : Nat)
    (hv : validUpdateFields p = true)
    (hsome : p.title ≠ none ∨ p.content ≠ none)
    (hid : 0 < note_id)
    (habs : selectNote db note_id = none) :
    update_note note_id p now db = (.notFound, db) := by
  have hid' : ¬ note_id ≤ 0 := by omega
  obtain ⟨pt, pc⟩ := p
  rcases pt with _ | t <;> rcases pc with _ | c
  · rcases hsome with h | h <;> exact absurd rfl h
  all_goals simp [update_note, hv, hid', habs]

/-- C10: for every existing note, an update supplying values identical to the
stored title and/or content still succeeds and still resets updated_at to the
statement time, because the trigger fires on every UPDATE of the row. -/
theorem update_identical_resets_updated_at (db : DB) (note_id : Int)
    (note : Note) (now : Nat) (hex : selectNote db note_id = some note)
    (hid : 0 < note_id)
    (ht : ValidTitle note.title) (hc : ValidContent note.content) :
    (update_note note_id { title := some note.title, content := some note.content } now db).1
      = .ok { note with updated_at := now }
    ∧ (update_note note_id { title := some note.title, content := none } now db).1
      = .ok { note with updated_at := now }
    ∧ (update_note note_id { title := none, content := some note.content } now db).1
      = .ok { note with updated_at := now } := by
  have hid' : ¬ note_id ≤ 0 := by omega
  refine ⟨?_, ?_, ?_⟩
  · rw [update_note_ok db note_id _ now note hex
      (by simp [validUpdateFields]; exact ⟨ht, hc⟩) (Or.inl (by simp)) hid']
    rfl
  · rw [update_note_ok db note_id _ now note hex
      (by simp [validUpdateFields]; exact ht) (Or.inl (by simp)) hid']
    rfl
  · rw [update_note_ok db note_id _ now note hex
      (by simp [validUpdateFields]; exact hc) (Or.inr (by simp)) hid']
    rfl

/-- C6: for every positive id, delete reports not-found exactly when the
DELETE statement affects zero rows, which happens exactly when no row matches;
an existing row deletes with success; and after the delete, get on that id
returns not-found. -/
theorem delete_note_spec (db : DB) (note_id : Int) (hid : 0 < note_id) :
    ((delete_note note_id db).1 = .notFound ↔ (deleteStmt db note_id).2 = 0)
    ∧ ((deleteStmt db note_id).2 = 0 ↔ selectNote db note_id = none)
    ∧ (selectNote db note_id ≠ none → (delete_note note_id db).1 = .ok ())
    ∧ (get_note note_id (delete_note note_id db).2).1 = .notFound := by
  have hid' : ¬ note_id ≤ 0 := by omega
  have hiff := deleteStmt_count_zero_iff db note_id
  refine ⟨?_, hiff, ?_, ?_⟩
  · unfold delete_note
    rw [if_neg hid']
    by_cases hz : (deleteStmt db note_id).2 = 0 <;> simp [hz]
  · intro hne
    have hz : ¬ (deleteStmt db note_id).2 = 0 := fun h => hne (hiff.mp h)
    unfold delete_note
    rw [if_neg hid']
    simp [hz]
  · have h2 : (delete_note note_id db).2 = (deleteStmt db note_id).1 := by
      unfold delete_note
      rw [if_neg hid']
      by_cases hz : (deleteStmt db note_id).2 = 0 <;> simp [hz]
    rw [h2]
    unfold get_note
    rw [if_neg hid', selectNote_deleteStmt]

/-- A filesystem whose working-directory entry exists, exhibiting the
empty-value behaviour of get_sqlite_db_path. -/
def fsDemo : FileSystem := { cwd := "/app", existing := ["/app/"] }

/-- C8 counterexample: with SQLITE_DB present but equal to the empty string,
the lookup fails even though the value is not absent and the normalized path
exists; so failure is not exactly "value absent or referenced file missing". -/
theorem get_sqlite_db_path_claim_false :
    isConfigError (get_sqlite_db_path fsDemo (some "")) = true
    ∧ (some "" : Option String) ≠ none
    ∧ fsDemo.pathExists (fsDemo.abspath "") = true := by
  refine ⟨rfl, by simp, rfl⟩

/-- C8 (amended): resolution fails exactly when the configuration value is
absent or empty, or the referenced file, normalized to an absolute path, does
not exist; with a nonempty value whose normalized path exists it returns that
normalized path, and existence is always checked on the normalized path. -/
theorem get_sqlite_db_path_spec (fs : FileSystem) (env : Option String) :
    (isConfigError (get_sqlite_db_path fs env) = true
      ↔ env = none ∨ env = some ""
        ∨ ∃ p, env = some p ∧ fs.pathExists (fs.abspath p) = false)
    ∧ (∀ p, env = some p → p ≠ "" → fs.pathExists (fs.abspath p) = true →
        get_sqlite_db_path fs env = .ok (fs.abspath p)) := by
  constructor
  · cases env with
    | none => simp [get_sqlite_db_path, isConfigError]
    | some p =>
      by_cases hp : p = ""
      · subst hp
        simp [get_sqlite_db_path, isConfigError]
      · by_cases hex : fs.pathExists (fs.abspath p) = true
        · simp [get_sqlite_db_path, isConfigError, hp, hex]
        · simp [get_sqlite_db_path, isConfigError, hp, hex]
  · intro q hq hne hex
    subst hq
    simp [get_sqlite_db_path, hne, hex]

/-! ### Witnesses: the claim theorems applied at concrete inputs -/

/-- Witness for C1 at the empty store with title "a", content "b", time 0. -/
theorem create_then_get_witness :
    ∃ note db',
      create_note "a" "b" 0 (⟨[], 1⟩ : DB) = (.ok note, db')
      ∧ note.title = "a" ∧ note.content = "b"
      ∧ 0 < note.id
      ∧ note.updated_at = note.created_at
      ∧ get_note note.id db' = (.ok note, db') :=
  create_then_get ⟨[], 1⟩ "a" "b" 0 (by decide) (by decide) (by decide)

/-- Witness for C2 on a two-row store with limit 200, offset 0. -/
theorem list_notes_ordered_truncated_witness :
    list_notes (some 200) (some 0) (⟨[⟨1, "a", "b", 0, 0⟩, ⟨2, "c", "d", 3, 4⟩], 3⟩ : DB)
        = (.ok (listQuery (⟨[⟨1, "a", "b", 0, 0⟩, ⟨2, "c", "d", 3, 4⟩], 3⟩ : DB) 200 0),
           (⟨[⟨1, "a", "b", 0, 0⟩, ⟨2, "c", "d", 3, 4⟩], 3⟩ : DB))
    ∧ (listQuery (⟨[⟨1, "a", "b", 0, 0⟩, ⟨2, "c", "d", 3, 4⟩], 3⟩ : DB) 200 0).length
        ≤ (200 : Int).toNat
    ∧ List.Pairwise noteOrder
        (listQuery (⟨[⟨1, "a", "b", 0, 0⟩, ⟨2, "c", "d", 3, 4⟩], 3⟩ : DB) 200 0) :=
  list_notes_ordered_truncated ⟨[⟨1, "a", "b", 0, 0⟩, ⟨2, "c", "d", 3, 4⟩], 3⟩ 200 0
    (by decide) (by decide) (by decide)

/-- Witness for C3: updating note 1's content-less payload (title "c") at
time 5 on a one-row store. -/
theorem update_note_frame_witness :
    ∃ n' db',
      update_note 1 ⟨some "c", none⟩ 5 (⟨[⟨1, "a", "b", 0, 0⟩], 2⟩ : DB) = (.ok n', db')
      ∧ n'.id = 1 ∧ n'.created_at = 0 ∧ n'.title = "c" ∧ n'.content = "b"
      ∧ n'.updated_at = 5 ∧ 0 ≤ n'.updated_at :=
  update_note_frame ⟨[⟨1, "a", "b", 0, 0⟩], 2⟩ 1 ⟨some "c", none⟩ 5 ⟨1, "a", "b", 0, 0⟩
    (by decide) rfl (by decide) (Or.inl (by decide)) (by decide)

/-- Witness for C4: updating the missing id 7 on the empty store. -/
theorem update_note_absent_witness :
    update_note 7 ⟨some "c", none⟩ 5 (⟨[], 1⟩ : DB) = (.notFound, (⟨[], 1⟩ : DB)) :=
  update_note_absent ⟨[], 1⟩ 7 ⟨some "c", none⟩ 5 (by decide) (Or.inl (by decide))
    (by decide) rfl

/-- Witness for C6: deleting id 1 on a one-row store. -/
theorem delete_note_spec_witness :
    ((delete_note 1 (⟨[⟨1, "a", "b", 0, 0⟩], 2⟩ : DB)).1 = .notFound
        ↔ (deleteStmt (⟨[⟨1, "a", "b", 0, 0⟩], 2⟩ : DB) 1).2 = 0)
    ∧ ((deleteStmt (⟨[⟨1, "a", "b", 0, 0⟩], 2⟩ : DB) 1).2 = 0
        ↔ selectNote (⟨[⟨1, "a", "b", 0, 0⟩], 2⟩ : DB) 1 = none)
    ∧ (selectNote (⟨[⟨1, "a", "b", 0, 0⟩], 2⟩ : DB) 1 ≠ none
        → (delete_note 1 (⟨[⟨1, "a", "b", 0, 0⟩], 2⟩ : DB)).1 = .ok ())
    ∧ (get_note 1 (delete_note 1 (⟨[⟨1, "a", "b", 0, 0⟩], 2⟩ : DB)).2).1 = .notFound :=
  delete_note_spec ⟨[⟨1, "a", "b", 0, 0⟩], 2⟩ 1 (by decide)

/-- Witness for C7: limit 0 is rejected and the empty store lists as ok []. -/
theorem list_notes_validation_witness :
    list_notes (some 0) (some 0) (⟨[], 1⟩ : DB) = (.validationError, (⟨[], 1⟩ : DB))
    ∧ list_notes (some 200) (some 0) (⟨[], 1⟩ : DB) = (.ok [], (⟨[], 1⟩ : DB)) :=
  ⟨(list_notes_validation ⟨[], 1⟩ 0 0).1 (Or.inl (by decide)),
   (list_notes_validation ⟨[], 1⟩ 200 0).2.2.1 (by decide) (by decide) (by decide) rfl⟩

/-- Witness for C8 (amended) at a concrete filesystem with an absolute path. -/
theorem get_sqlite_db_path_spec_witness :
    get_sqlite_db_path ⟨"/app", ["/data/notes.db"]⟩ (some "/data/notes.db")
      = .ok (FileSystem.abspath ⟨"/app", ["/data/notes.db"]⟩ "/data/notes.db") :=
  (get_sqlite_db_path_spec ⟨"/app", ["/data/notes.db"]⟩ (some "/data/notes.db")).2
    "/data/notes.db" rfl (by decide) (by decide)

/-- Witness for C10: re-supplying the stored values of note 1 at time 7. -/
theorem update_identical_witness :
    (update_note 1 ⟨some "a", some "b"⟩ 7 (⟨[⟨1, "a", "b", 0, 0⟩], 2⟩ : DB)).1
      = .ok ⟨1, "a", "b", 0, 7⟩
    ∧ (update_note 1 ⟨some "a", none⟩ 7 (⟨[⟨1, "a", "b", 0, 0⟩], 2⟩ : DB)).1
      = .ok ⟨1, "a", "b", 0, 7⟩
    ∧ (update_note 1 ⟨none, some "b"⟩ 7 (⟨[⟨1, "a", "b", 0, 0⟩], 2⟩ : DB)).1
      = .ok ⟨1, "a", "b", 0, 7⟩ :=
  update_identical_resets_updated_at ⟨[⟨1, "a", "b", 0, 0⟩], 2⟩ 1 ⟨1, "a", "b", 0, 0⟩ 7
    rfl (by decide) (by decide) (by decide)
